import Mathlib

/-
Verification of the appointment scheduling and conflict detection engine
(backend/app/services/appointment_service.py together with
backend/app/models/appointment.py) against its natural-language
specification.

Modelling conventions, chosen to mirror the source faithfully:
- A civil date string YYYY-MM-DD is modelled as a day index (Nat); string
  equality on dates becomes Nat equality, and the lexicographic order used
  by the date range queries becomes Nat order.  Day index 0 falls on a
  Monday in the model calendar, matching how strftime with the pattern for
  the weekday name is used only to look up working hours by weekday.
- A time-of-day string HH:MM is modelled as minutes since midnight (Nat);
  the lexicographic order the source uses on zero-padded HH:MM strings
  coincides with numeric order on minutes.
- An absolute datetime (datetime.strptime of date plus time) is modelled
  as date index times 1440 plus minutes.  The clock value now returned by
  datetime.now has sub-minute precision, so now is a rational number of
  minutes.
- Mongo documents are open dictionaries; a key that a given code path
  never writes is modelled as an Option field left at none.
- Each Mongo collection is a list of records; find_one returns the first
  match and update_one rewrites the first match, modelled by find? and an
  explicit updateFirst function.  Fresh ObjectId generation is modelled by
  passing the fresh identifier as an explicit argument.
- Monetary amounts and refund percentages (Python floats) are modelled as
  rationals; all quantities involved are small decimals on which float
  arithmetic is exact.
-/

namespace ApptSvc

/-- The status enum of backend/app/models/appointment.py
(class AppointmentStatus). -/
inductive AppointmentStatus where
  | scheduled
  | confirmed
  | in_progress
  | completed
  | cancelled
  | no_show
  | rescheduled
deriving DecidableEq

/-- An appointment document as created and mutated by
appointment_service.py.  Field names follow the source document keys. -/
structure Appointment where
  appointment_id : String
  patient_id : String
  doctor_id : String
  appointment_date : Nat
  appointment_time : Nat
  duration_minutes : Nat
  status : AppointmentStatus
  notes : Option String
  consultation_type : String
  created_at : ℚ
  updated_at : ℚ
  is_cancelled : Bool
  refund_status : String
  refund_amount : ℚ
  refund_percentage : Option ℚ
  reminders_sent : List String
  cancelled_at : Option ℚ
  cancellation_reason : Option String
  completed_at : Option ℚ
  consultation_notes : Option String
deriving DecidableEq

/-- A reschedule history document (reschedule_doc in
reschedule_appointment). -/
structure RescheduleRecord where
  reschedule_id : String
  original_appointment_id : String
  new_appointment_id : String
  rescheduled_at : ℚ
deriving DecidableEq

/-- A reminder document (reminder_doc in _schedule_reminders). -/
structure Reminder where
  reminder_id : String
  appointment_id : String
  reminder_time : ℚ
  channel : String
  status : String
  created_at : ℚ
deriving DecidableEq

/-- The collections of the appointment store that the service reads and
writes: appointments, reschedule_history and appointment_reminders. -/
structure DB where
  appointments : List Appointment
  reschedule_history : List RescheduleRecord
  reminders : List Reminder
deriving DecidableEq

/-- Absolute datetime in minutes of a date index plus a time of day,
modelling datetime.strptime on the concatenated date and time strings. -/
def toDatetime (date time : Nat) : Nat :=
  date * 1440 + time

/-- Membership of a status in the active list
scheduled, confirmed, in_progress used by the store queries. -/
def isActiveStatus : AppointmentStatus → Bool
  | .scheduled => true
  | .confirmed => true
  | .in_progress => true
  | _ => false

/-- First branch of the $or in the conflict query: the existing
appointment is on the requested date, starts no later than the requested
time, and its computed end datetime (start plus duration) is greater than
or equal to the requested start datetime.  The comparison is the $gte of
the source, hence inclusive. -/
def conflictBranch1 (a : Appointment) (appointment_date appointment_time : Nat) : Bool :=
  a.appointment_date == appointment_date &&
  decide (a.appointment_time ≤ appointment_time) &&
  decide (toDatetime appointment_date appointment_time ≤
    toDatetime a.appointment_date a.appointment_time + a.duration_minutes)

/-- Second branch of the $or in the conflict query: the existing
appointment is on the requested date, starts no earlier than the requested
time, and its start datetime is less than or equal to the requested end
datetime.  The comparison is the $lte of the source, hence inclusive. -/
def conflictBranch2 (a : Appointment) (appointment_date appointment_time duration_minutes : Nat) : Bool :=
  a.appointment_date == appointment_date &&
  decide (appointment_time ≤ a.appointment_time) &&
  decide (toDatetime a.appointment_date a.appointment_time ≤
    toDatetime appointment_date appointment_time + duration_minutes)

/-- The full document filter of the conflict query in
check_conflict_detection: same doctor, active status, one of the two
interval branches, and not the excluded appointment id when an exclusion
is given. -/
def conflictQueryMatch (doctor_id : String)
    (appointment_date appointment_time duration_minutes : Nat)
    (exclude_appointment_id : Option String) (a : Appointment) : Bool :=
  a.doctor_id == doctor_id &&
  isActiveStatus a.status &&
  (conflictBranch1 a appointment_date appointment_time ||
   conflictBranch2 a appointment_date appointment_time duration_minutes) &&
  (match exclude_appointment_id with
   | some e => a.appointment_id != e
   | none => true)

/-- Result of check_conflict_detection.  The source also returns suggested
alternatives, the checked time range and a simulated analysis time; the
claims only depend on the conflict flag and the conflicting list, so only
those are modelled. -/
structure ConflictCheckResult where
  conflict_found : Bool
  conflicting_appointments : List Appointment
deriving DecidableEq

/-- check_conflict_detection of AppointmentService: collect the documents
matching the conflict query and report whether the list is nonempty. -/
def check_conflict_detection (appointments : List Appointment) (doctor_id : String)
    (appointment_date appointment_time duration_minutes : Nat)
    (exclude_appointment_id : Option String) : ConflictCheckResult :=
  let conflicts := appointments.filter
    (conflictQueryMatch doctor_id appointment_date appointment_time duration_minutes
      exclude_appointment_id)
  { conflict_found := !conflicts.isEmpty, conflicting_appointments := conflicts }

/-- A time slot of the availability grid (model TimeSlot of
appointment.py); start and end are minutes since midnight. -/
structure TimeSlot where
  start_time : Nat
  end_time : Nat
  is_available : Bool
deriving DecidableEq

/-- Availability of one day (model DayAvailability of appointment.py). -/
structure DayAvailability where
  date : Nat
  slots : List TimeSlot
  is_working_day : Bool
deriving DecidableEq

/-- Weekday name of a day index, modelling strftime of the weekday name
lowercased; day index 0 is a Monday in the model calendar. -/
def weekdayName (date : Nat) : String :=
  (["monday", "tuesday", "wednesday", "thursday", "friday", "saturday", "sunday"]).getD
    (date % 7) "monday"

/-- One iteration count bounded unfolding of the slot generation loop of
_calculate_day_availability: while current is before the range end, form a
candidate slot of exactly 30 minutes (the slot length is hard coded as a
timedelta of 30 minutes in the source), keep it when it fits inside the
range, tag it available when no booked pair equals the pair of its start
time and 30, and advance to the slot end.  The loop advances by 30
minutes per iteration, so any fuel of at least the distance from current
to the range end makes the fuel bound unreachable. -/
def generateSlotsAux (booked_slots : List (Nat × Nat)) :
    Nat → Nat → Nat → List TimeSlot
  | 0, _, _ => []
  | fuel + 1, current, end_time =>
    if current < end_time then
      (if current + 30 ≤ end_time then
        [{ start_time := current, end_time := current + 30,
           is_available := !(booked_slots.contains (current, 30)) }]
       else []) ++ generateSlotsAux booked_slots fuel (current + 30) end_time
    else []

/-- The slot generation loop of _calculate_day_availability, run with
enough fuel for the loop to reach its own exit condition. -/
def generateSlots (current end_time : Nat) (booked_slots : List (Nat × Nat)) : List TimeSlot :=
  generateSlotsAux booked_slots (end_time - current) current end_time

/-- _calculate_day_availability of AppointmentService: look up the ranges
of the weekday in the working hours table; when absent or empty the day is
not a working day; otherwise restrict the given appointments to the date,
record their start time and duration pairs as booked slots, and generate
the 30 minute grid over every working range. -/
def calculate_day_availability (date : Nat)
    (working_hours : List (String × List (Nat × Nat)))
    (appointments : List Appointment) : DayAvailability :=
  match working_hours.lookup (weekdayName date) with
  | none => { date := date, slots := [], is_working_day := false }
  | some [] => { date := date, slots := [], is_working_day := false }
  | some ranges =>
    let day_appointments := appointments.filter (fun a => a.appointment_date == date)
    let booked_slots := day_appointments.map (fun a => (a.appointment_time, a.duration_minutes))
    { date := date,
      slots := (ranges.map (fun r => generateSlots r.1 r.2 booked_slots)).flatten,
      is_working_day := true }

/-- The default working hours table returned by
_get_doctor_working_hours: 09:00 to 17:00 Monday through Friday, empty on
the weekend, in minutes since midnight. -/
def default_working_hours : List (String × List (Nat × Nat)) :=
  [("monday", [(540, 1020)]),
   ("tuesday", [(540, 1020)]),
   ("wednesday", [(540, 1020)]),
   ("thursday", [(540, 1020)]),
   ("friday", [(540, 1020)]),
   ("saturday", []),
   ("sunday", [])]

/-- The appointment query of get_real_time_availability: same doctor, date
within the inclusive range, status in the active list. -/
def activeAppointmentsInRange (appointments : List Appointment) (doctor_id : String)
    (start_date end_date : Nat) : List Appointment :=
  appointments.filter (fun a =>
    a.doctor_id == doctor_id &&
    decide (start_date ≤ a.appointment_date) &&
    decide (a.appointment_date ≤ end_date) &&
    isActiveStatus a.status)

/-- The per day loop of get_real_time_availability: walk the dates from
start to end inclusive, computing day availability from the default
working hours and the active appointments of the range.  The surrounding
response assembly (doctor name, slot totals, response time) carries no
scheduling logic and is not modelled. -/
def get_real_time_availability (appointments : List Appointment) (doctor_id : String)
    (start_date end_date : Nat) : List DayAvailability :=
  let appts := activeAppointmentsInRange appointments doctor_id start_date end_date
  (List.range (end_date + 1 - start_date)).map
    (fun i => calculate_day_availability (start_date + i) default_working_hours appts)

/-- The ValueError messages raised by the service, one constructor per
distinct message. -/
inductive ApptError where
  | slot_unavailable
  | must_be_future
  | min_advance_24h
  | not_found
  | cannot_cancel
  | cannot_reschedule
deriving DecidableEq

/-- AppointmentCreate of appointment.py (request payload of a booking). -/
structure AppointmentCreate where
  doctor_id : String
  appointment_date : Nat
  appointment_time : Nat
  duration_minutes : Nat
  notes : Option String
  consultation_type : String
deriving DecidableEq

/-- RescheduleRequest of appointment.py, restricted to the fields the
service reads: the new date and the new time. -/
structure RescheduleRequest where
  new_date : Nat
  new_time : Nat
deriving DecidableEq

/-- find_one on the appointments collection by appointment_id: the first
document with that id. -/
def find_appointment (appointments : List Appointment) (appointment_id : String) :
    Option Appointment :=
  appointments.find? (fun a => a.appointment_id == appointment_id)

/-- update_one with a $set: rewrite the first record satisfying the
filter, leave every other record untouched. -/
def updateFirst (p : Appointment → Bool) (f : Appointment → Appointment) :
    List Appointment → List Appointment
  | [] => []
  | a :: rest => if p a then f a :: rest else a :: updateFirst p f rest

/-- _schedule_reminders of AppointmentService: insert a 24 hour email
reminder and a 1 hour sms reminder, each only when its fire time is still
in the future.  ObjectId freshness of the reminder ids is modelled by
deriving them from the appointment id; no claim inspects them. -/
def schedule_reminders (reminders : List Reminder) (now : ℚ) (a : Appointment) :
    List Reminder :=
  let dt : ℚ := (toDatetime a.appointment_date a.appointment_time : Nat)
  (reminders ++
    (if now < dt - 24 * 60 then
      [{ reminder_id := a.appointment_id ++ ".r24h", appointment_id := a.appointment_id,
         reminder_time := dt - 24 * 60, channel := "email", status := "scheduled",
         created_at := now }]
     else [])) ++
    (if now < dt - 60 then
      [{ reminder_id := a.appointment_id ++ ".r1h", appointment_id := a.appointment_id,
         reminder_time := dt - 60, channel := "sms", status := "scheduled",
         created_at := now }]
     else [])

/-- The appointment document built by book_appointment on success. -/
def newAppointmentDoc (now : ℚ) (appointment_id patient_id : String)
    (d : AppointmentCreate) : Appointment :=
  { appointment_id := appointment_id,
    patient_id := patient_id,
    doctor_id := d.doctor_id,
    appointment_date := d.appointment_date,
    appointment_time := d.appointment_time,
    duration_minutes := d.duration_minutes,
    status := .scheduled,
    notes := d.notes,
    consultation_type := d.consultation_type,
    created_at := now,
    updated_at := now,
    is_cancelled := false,
    refund_status := "not_applicable",
    refund_amount := 0,
    refund_percentage := none,
    reminders_sent := [],
    cancelled_at := none,
    cancellation_reason := none,
    completed_at := none,
    consultation_notes := none }

/-- The read and validate phase of book_appointment, in source order:
first the conflict check against the store, then the strict future check,
then the 24 hour minimum advance check; none reports an error when the
booking may proceed.  This phase performs no write. -/
def bookPhaseCheck (db : DB) (now : ℚ) (d : AppointmentCreate) : Option ApptError :=
  if (check_conflict_detection db.appointments d.doctor_id d.appointment_date
      d.appointment_time d.duration_minutes none).conflict_found then
    some .slot_unavailable
  else
    let dt : ℚ := (toDatetime d.appointment_date d.appointment_time : Nat)
    if dt ≤ now then some .must_be_future
    else if dt < now + 24 * 60 then some .min_advance_24h
    else none

/-- The write phase of book_appointment: insert the new scheduled document
and schedule its reminders.  In the source this insert is a separate
awaited store operation from the reads of the check phase, with no lock
held in between. -/
def bookPhaseInsert (db : DB) (now : ℚ) (appointment_id patient_id : String)
    (d : AppointmentCreate) : DB × Appointment :=
  let doc := newAppointmentDoc now appointment_id patient_id d
  ({ db with appointments := db.appointments ++ [doc],
             reminders := schedule_reminders db.reminders now doc }, doc)

/-- book_appointment of AppointmentService: the check phase followed, on
success, by the insert phase. -/
def book_appointment (db : DB) (now : ℚ) (appointment_id patient_id : String)
    (d : AppointmentCreate) : Except ApptError (DB × Appointment) :=
  match bookPhaseCheck db now d with
  | some e => .error e
  | none => .ok (bookPhaseInsert db now appointment_id patient_id d)

/-- Hours from now until the start of an appointment, modelling the
difference of the start datetime and now in seconds divided by 3600;
in minutes that is the difference divided by 60. -/
def hoursUntil (now : ℚ) (a : Appointment) : ℚ :=
  (((toDatetime a.appointment_date a.appointment_time : Nat) : ℚ) - now) / 60

/-- The triple returned by calculate_refund: amount, percentage, policy
text. -/
structure RefundResult where
  refund_amount : ℚ
  refund_percentage : ℚ
  policy : String
deriving DecidableEq

/-- calculate_refund of AppointmentService: not found fails; completed or
no_show gets a zero not applicable refund; otherwise the percentage is 100
when at least 24 hours remain, 50 when at least 6 remain, else 0, and the
amount is the 100 dollar consultation fee times the percentage over 100. -/
def calculate_refund (db : DB) (now : ℚ) (appointment_id : String) :
    Except ApptError RefundResult :=
  match find_appointment db.appointments appointment_id with
  | none => .error .not_found
  | some a =>
    if a.status = .completed ∨ a.status = .no_show then
      .ok { refund_amount := 0, refund_percentage := 0, policy := "not_applicable" }
    else
      let hours := hoursUntil now a
      let refund_percentage : ℚ := if 24 ≤ hours then 100 else if 6 ≤ hours then 50 else 0
      let policy :=
        if 24 ≤ hours then "100% refund - cancelled 24+ hours before appointment"
        else if 6 ≤ hours then "50% refund - cancelled 6-24 hours before appointment"
        else "0% refund - cancelled less than 6 hours before appointment"
      let consultation_fee : ℚ := 100
      .ok { refund_amount := consultation_fee * (refund_percentage / 100),
            refund_percentage := refund_percentage, policy := policy }

/-- CancellationResponse of appointment.py, restricted to the fields the
service fills. -/
structure CancellationResponse where
  appointment_id : String
  status : String
  refund_status : String
  refund_amount : ℚ
  refund_percentage : ℚ
  cancellation_reason : String
  cancelled_at : ℚ
  refund_policy : String
deriving DecidableEq

/-- The $set document applied to the appointment by cancel_appointment.
Note that refund_percentage is not among the keys written. -/
def cancelUpdate (now : ℚ) (reason : String) (rr : RefundResult)
    (a : Appointment) : Appointment :=
  { a with status := .cancelled,
           is_cancelled := true,
           cancelled_at := some now,
           cancellation_reason := some reason,
           refund_status := if 0 < rr.refund_amount then "pending" else "not_applicable",
           refund_amount := rr.refund_amount,
           updated_at := now }

/-- cancel_appointment of AppointmentService: not found fails; a completed
or already cancelled appointment fails; otherwise compute the refund,
apply the cancellation update to the stored record, and answer with the
cancellation response carrying the refund decision. -/
def cancel_appointment (db : DB) (now : ℚ) (appointment_id reason : String) :
    Except ApptError (DB × CancellationResponse) :=
  match find_appointment db.appointments appointment_id with
  | none => .error .not_found
  | some a =>
    if a.status = .completed ∨ a.status = .cancelled then .error .cannot_cancel
    else
      match calculate_refund db now appointment_id with
      | .error e => .error e
      | .ok rr =>
        let appts := updateFirst (fun x => x.appointment_id == appointment_id)
          (cancelUpdate now reason rr) db.appointments
        let db' := { db with appointments := appts }
        .ok (db',
          { appointment_id := appointment_id,
            status := "cancelled",
            refund_status := if 0 < rr.refund_amount then "pending" else "not_applicable",
            refund_amount := rr.refund_amount,
            refund_percentage := rr.refund_percentage,
            cancellation_reason := reason,
            cancelled_at := now,
            refund_policy := rr.policy })

/-- RescheduleResponse of appointment.py, restricted to the fields the
service fills from the two documents and the history record. -/
structure RescheduleResponse where
  old_appointment : Appointment
  new_appointment : Appointment
  reschedule_id : String
  rescheduled_at : ℚ
  refund_adjustment : ℚ
deriving DecidableEq

/-- The $set document applied to the old appointment by
reschedule_appointment. -/
def rescheduleRetire (now : ℚ) (r : RescheduleRequest) (a : Appointment) : Appointment :=
  { a with status := .cancelled,
           is_cancelled := true,
           cancelled_at := some now,
           cancellation_reason :=
             some ("Rescheduled to " ++ toString r.new_date ++ " " ++ toString r.new_time),
           updated_at := now }

/-- reschedule_appointment of AppointmentService: not found fails; a
completed or cancelled appointment fails; a conflict at the new slot
(excluding the appointment being moved) fails; otherwise insert a copy of
the current document with a fresh id, the new date and time and status
rescheduled, retire the old document as cancelled, append one reschedule
history record linking old to new, and schedule reminders for the new
document. -/
def reschedule_appointment (db : DB) (now : ℚ)
    (new_appointment_id reschedule_id appointment_id : String)
    (r : RescheduleRequest) : Except ApptError (DB × RescheduleResponse) :=
  match find_appointment db.appointments appointment_id with
  | none => .error .not_found
  | some cur =>
    if cur.status = .completed ∨ cur.status = .cancelled then .error .cannot_reschedule
    else if (check_conflict_detection db.appointments cur.doctor_id r.new_date r.new_time
        cur.duration_minutes (some appointment_id)).conflict_found then
      .error .slot_unavailable
    else
      let newAppt := { cur with appointment_id := new_appointment_id,
                                appointment_date := r.new_date,
                                appointment_time := r.new_time,
                                status := .rescheduled,
                                created_at := now,
                                updated_at := now }
      let appts := updateFirst (fun x => x.appointment_id == appointment_id)
        (rescheduleRetire now r) (db.appointments ++ [newAppt])
      let recDoc : RescheduleRecord :=
        { reschedule_id := reschedule_id,
          original_appointment_id := appointment_id,
          new_appointment_id := new_appointment_id,
          rescheduled_at := now }
      let db' := { db with
        appointments := appts,
        reschedule_history := db.reschedule_history ++ [recDoc],
        reminders := schedule_reminders db.reminders now newAppt }
      .ok (db',
        { old_appointment := cur,
          new_appointment := newAppt,
          reschedule_id := reschedule_id,
          rescheduled_at := now,
          refund_adjustment := 0 })

/-- complete_appointment of AppointmentService: apply the completion
update to the stored record with no precondition on its current status,
then read the record back and answer with it; only a missing id fails,
where the source would crash converting a missing document. -/
def complete_appointment (db : DB) (now : ℚ) (appointment_id : String)
    (notes : Option String) : Except ApptError (DB × Appointment) :=
  match find_appointment (updateFirst (fun x => x.appointment_id == appointment_id) (fun a => { a with status := .completed, completed_at := some now, consultation_notes := notes, updated_at := now }) db.appointments) appointment_id with
  | none => .error .not_found
  | some a =>
    .ok ({ db with appointments := updateFirst (fun x => x.appointment_id == appointment_id) (fun a => { a with status := .completed, completed_at := some now, consultation_notes := notes, updated_at := now }) db.appointments }, a)

/-- Concrete stored appointment for claim C2: active, on day 0, from
10:00 for 30 minutes, so its half open interval is [600, 630). -/
def c2_existing : Appointment :=
  newAppointmentDoc 0 "c2a" "c2p" ⟨"c2doc", 0, 600, 30, none, "general"⟩

/-- Concrete active appointment for the C3 counterexample: on Monday day
0 from 10:15 for 30 minutes, interval [615, 645). -/
def c3_appt : Appointment :=
  newAppointmentDoc 0 "c3a" "c3p" ⟨"c3doc", 0, 615, 30, none, "general"⟩

/-- Concrete active appointment for claim C9: Monday day 0 at 10:00 for
30 minutes. -/
def c9_appt : Appointment :=
  newAppointmentDoc 0 "c9a" "c9p" ⟨"c9doc", 0, 600, 30, none, "general"⟩

/-- Concrete active appointment for the C3 witness: Monday day 0 at
10:00 for exactly 30 minutes, the exact start match case. -/
def c3w_appt : Appointment :=
  newAppointmentDoc 0 "c3w" "c3wp" ⟨"c3doc", 0, 600, 30, none, "general"⟩

/-- Concrete appointment for the C4 witness: scheduled on day 0 at
10:00, so at clock 0 it starts in exactly 10 hours. -/
def c4_appt : Appointment :=
  newAppointmentDoc 0 "c4a" "c4p" ⟨"c4doc", 0, 600, 30, none, "general"⟩

/-- Concrete stored appointment for the C6 counterexample: active on day
10 at 10:00 for 30 minutes. -/
def c6_existing : Appointment :=
  newAppointmentDoc 0 "c6a" "c6p" ⟨"c6doc", 10, 600, 30, none, "general"⟩

/-- The C6 booking request: the same slot on day 10, requested when the
clock already stands at day 11, 10:00 — that is, a booking for
yesterday. -/
def c6_req : AppointmentCreate := ⟨"c6doc", 10, 600, 30, none, "general"⟩

/-- The C6 witness request: day 0 at 10:00, in the past at clock
16440. -/
def c6w_req : AppointmentCreate := ⟨"c6doc", 0, 600, 30, none, "general"⟩

/-- Concrete appointment for the C7 counterexample: a no_show record. -/
def c7_appt : Appointment :=
  { newAppointmentDoc 0 "c7a" "c7p" ⟨"c7doc", 1, 0, 30, none, "general"⟩ with
    status := .no_show }

/-- Concrete appointment for the C7 witness: a completed record. -/
def c7w_appt : Appointment :=
  { newAppointmentDoc 0 "c7w" "c7wp" ⟨"c7doc", 1, 0, 30, none, "general"⟩ with
    status := .completed }

/-- Concrete appointment for claim C8: scheduled on day 0 at 10:00, so
at clock 0 the 50 percent tier applies and the refund amount 50 is
positive. -/
def c8_appt : Appointment :=
  newAppointmentDoc 0 "c8a" "c8p" ⟨"c8doc", 0, 600, 30, none, "general"⟩

/-- Concrete appointment for the C10 witness: a cancelled record, which
complete_appointment happily marks completed. -/
def c10_appt : Appointment :=
  { newAppointmentDoc 0 "c10a" "c10p" ⟨"c10doc", 0, 600, 30, none, "general"⟩ with
    status := .cancelled }

/-- Concrete appointment for claim C5: scheduled on day 2 at 10:00. -/
def c5_appt : Appointment :=
  newAppointmentDoc 0 "c5a" "c5p" ⟨"c5doc", 2, 600, 30, none, "general"⟩

/-- The pairwise form of the no double booking invariant: when two
appointments belong to the same provider on the same date and their half
open intervals intersect, they are not both active. -/
def overlapRel (a b : Appointment) : Prop :=
  a.doctor_id = b.doctor_id → a.appointment_date = b.appointment_date →
  a.appointment_time < b.appointment_time + b.duration_minutes →
  b.appointment_time < a.appointment_time + a.duration_minutes →
  ¬(isActiveStatus a.status = true ∧ isActiveStatus b.status = true)

/-- The core invariant of the specification: no two stored appointments
of the same provider with intersecting half open intervals on the same
date are both in an active status. -/
def NoDoubleBooking (db : DB) : Prop :=
  db.appointments.Pairwise overlapRel

/-- One operation of the appointment engine, for stating how sequences
of bookings, cancellations, reschedules and completions act on the
store. -/
inductive Op where
  | book (now : ℚ) (appointment_id patient_id : String) (d : AppointmentCreate)
  | cancel (now : ℚ) (appointment_id reason : String)
  | reschedule (now : ℚ) (new_appointment_id reschedule_id appointment_id : String)
      (r : RescheduleRequest)
  | complete (now : ℚ) (appointment_id : String) (notes : Option String)

/-- Apply one operation to the store: on success the new store, on any
error the store unchanged (every error path of the service returns
before its first write). -/
def applyOp (db : DB) : Op → DB
  | .book now appointment_id patient_id d =>
    match book_appointment db now appointment_id patient_id d with
    | .ok pr => pr.1
    | .error _ => db
  | .cancel now appointment_id reason =>
    match cancel_appointment db now appointment_id reason with
    | .ok pr => pr.1
    | .error _ => db
  | .reschedule now new_appointment_id reschedule_id appointment_id r =>
    match reschedule_appointment db now new_appointment_id reschedule_id appointment_id r with
    | .ok pr => pr.1
    | .error _ => db
  | .complete now appointment_id notes =>
    match complete_appointment db now appointment_id notes with
    | .ok pr => pr.1
    | .error _ => db

/-- Run a sequence of operations left to right, one at a time. -/
def runOps (db : DB) (ops : List Op) : DB :=
  ops.foldl applyOp db

/-- One concrete interleaving of two concurrently submitted booking
requests: each request runs its full check phase against the same store
state before either insert phase executes.  In the source the conflict
query and the insert are separate awaited store operations with no lock,
transaction or conditional write spanning them, so this interleaving is
reachable; when both checks pass, both inserts run. -/
def interleavedDoubleBook (db : DB) (now : ℚ) (id1 p1 : String) (d1 : AppointmentCreate)
    (id2 p2 : String) (d2 : AppointmentCreate) : Option DB :=
  match bookPhaseCheck db now d1, bookPhaseCheck db now d2 with
  | none, none =>
    some (bookPhaseInsert (bookPhaseInsert db now id1 p1 d1).1 now id2 p2 d2).1
  | _, _ => none

/-- The C1 booking request: doctor c1doc, day 2 at 10:00 for 30
minutes, submitted twice concurrently. -/
def c1_req : AppointmentCreate := ⟨"c1doc", 2, 600, 30, none, "general"⟩

/-
Theorems: shared lemmas about the embedded operations, evaluation
lemmas, and the per claim results.
-/

/-- The fuel bound of generateSlots is never the reason the loop stops:
with fuel at least the distance to the range end, the result does not
depend on the fuel. -/
theorem generateSlotsAux_fuel_irrelevant (booked_slots : List (Nat × Nat)) :
    ∀ fuel fuel' current end_time, end_time - current ≤ fuel →
      end_time - current ≤ fuel' →
      generateSlotsAux booked_slots fuel current end_time =
        generateSlotsAux booked_slots fuel' current end_time := by
  intro fuel
  induction fuel with
  | zero =>
    intro fuel' current end_time h h'
    cases fuel' with
    | zero => rfl
    | succ n =>
      have hc : ¬ current < end_time := by omega
      simp [generateSlotsAux, hc]
  | succ n ih =>
    intro fuel' current end_time h h'
    cases fuel' with
    | zero =>
      have hc : ¬ current < end_time := by omega
      simp [generateSlotsAux, hc]
    | succ m =>
      by_cases hc : current < end_time
      · simp only [generateSlotsAux, if_pos hc]
        rw [ih m (current + 30) end_time (by omega) (by omega)]
      · simp [generateSlotsAux, hc]

/-- A document matches the conflict query exactly when it belongs to the
doctor, is active, is not the excluded id, lies on the requested date, and
its closed interval intersects the closed candidate interval: the two
inclusive branch comparisons of the query amount to the closed interval
intersection test. -/
theorem conflictQueryMatch_iff (doctor_id : String)
    (date time dur : Nat) (excl : Option String) (a : Appointment) :
    conflictQueryMatch doctor_id date time dur excl a = true ↔
    (a.doctor_id = doctor_id ∧ isActiveStatus a.status = true ∧
     a.appointment_date = date ∧
     a.appointment_time ≤ time + dur ∧ time ≤ a.appointment_time + a.duration_minutes ∧
     (∀ e, excl = some e → a.appointment_id ≠ e)) := by
  cases excl with
  | none =>
    simp only [conflictQueryMatch, conflictBranch1, conflictBranch2, toDatetime,
      Bool.and_eq_true, Bool.or_eq_true, decide_eq_true_eq, beq_iff_eq, and_true]
    constructor
    · rintro ⟨⟨hdoc, hact⟩, hbr⟩
      refine ⟨hdoc, hact, ?_, ?_, ?_, fun e he => by cases he⟩
      · rcases hbr with ⟨⟨hd, -⟩, -⟩ | ⟨⟨hd, -⟩, -⟩ <;> exact hd
      · rcases hbr with ⟨⟨hd, h1⟩, h2⟩ | ⟨⟨hd, h1⟩, h2⟩ <;> omega
      · rcases hbr with ⟨⟨hd, h1⟩, h2⟩ | ⟨⟨hd, h1⟩, h2⟩ <;> omega
    · rintro ⟨hdoc, hact, hd, h1, h2, -⟩
      refine ⟨⟨hdoc, hact⟩, ?_⟩
      by_cases hle : a.appointment_time ≤ time
      · exact Or.inl ⟨⟨hd, hle⟩, by omega⟩
      · exact Or.inr ⟨⟨hd, by omega⟩, by omega⟩
  | some e =>
    simp only [conflictQueryMatch, conflictBranch1, conflictBranch2, toDatetime,
      Bool.and_eq_true, Bool.or_eq_true, decide_eq_true_eq, beq_iff_eq, bne_iff_ne]
    constructor
    · rintro ⟨⟨⟨hdoc, hact⟩, hbr⟩, hne⟩
      refine ⟨hdoc, hact, ?_, ?_, ?_, fun x hx => by cases hx; exact hne⟩
      · rcases hbr with ⟨⟨hd, -⟩, -⟩ | ⟨⟨hd, -⟩, -⟩ <;> exact hd
      · rcases hbr with ⟨⟨hd, h1⟩, h2⟩ | ⟨⟨hd, h1⟩, h2⟩ <;> omega
      · rcases hbr with ⟨⟨hd, h1⟩, h2⟩ | ⟨⟨hd, h1⟩, h2⟩ <;> omega
    · rintro ⟨hdoc, hact, hd, h1, h2, hne⟩
      refine ⟨⟨⟨hdoc, hact⟩, ?_⟩, hne e rfl⟩
      by_cases hle : a.appointment_time ≤ time
      · exact Or.inl ⟨⟨hd, hle⟩, by omega⟩
      · exact Or.inr ⟨⟨hd, by omega⟩, by omega⟩

/-- The conflict flag is set exactly when some stored document matches the
conflict query. -/
theorem conflict_found_iff (appointments : List Appointment) (doctor_id : String)
    (date time dur : Nat) (excl : Option String) :
    (check_conflict_detection appointments doctor_id date time dur excl).conflict_found = true ↔
    ∃ a ∈ appointments, conflictQueryMatch doctor_id date time dur excl a = true := by
  simp only [check_conflict_detection, Bool.not_eq_true', List.isEmpty_eq_false_iff_exists_mem]
  constructor
  · rintro ⟨a, ha⟩
    exact ⟨a, (List.mem_filter.mp ha).1, (List.mem_filter.mp ha).2⟩
  · rintro ⟨a, ha, hm⟩
    exact ⟨a, List.mem_filter.mpr ⟨ha, hm⟩⟩

/-- When the conflict flag is clear, no stored document matches the
query. -/
theorem conflict_not_found (appointments : List Appointment) (doctor_id : String)
    (date time dur : Nat) (excl : Option String)
    (h : (check_conflict_detection appointments doctor_id date time dur
      excl).conflict_found = false) :
    ∀ a ∈ appointments, conflictQueryMatch doctor_id date time dur excl a = false := by
  intro a ha
  by_contra hc
  have : (check_conflict_detection appointments doctor_id date time dur
      excl).conflict_found = true :=
    (conflict_found_iff appointments doctor_id date time dur excl).mpr
      ⟨a, ha, by revert hc; cases conflictQueryMatch doctor_id date time dur excl a <;> simp⟩
  rw [h] at this
  cases this

/-- find? of a prefix survives an append on the right. -/
theorem find?_append_of_some {α : Type} (p : α → Bool) (l₁ l₂ : List α) (x : α)
    (h : l₁.find? p = some x) : (l₁ ++ l₂).find? p = some x := by
  induction l₁ with
  | nil => simp [List.find?] at h
  | cons a t ih =>
    by_cases hp : p a
    · rw [List.find?_cons_of_pos _ hp] at h
      rw [List.cons_append, List.find?_cons_of_pos _ hp]
      exact h
    · rw [List.find?_cons_of_neg _ hp] at h
      rw [List.cons_append, List.find?_cons_of_neg _ hp]
      exact ih h

/-- Updating the first match rewrites exactly the record that find?
returns, provided the update keeps the record matching. -/
theorem updateFirst_find? (p : Appointment → Bool) (f : Appointment → Appointment)
    (l : List Appointment) (x : Appointment)
    (h : l.find? p = some x) (hf : p (f x) = true) :
    (updateFirst p f l).find? p = some (f x) := by
  induction l with
  | nil => simp [List.find?] at h
  | cons a t ih =>
    by_cases hp : p a
    · rw [List.find?_cons_of_pos _ hp] at h
      obtain rfl : a = x := by injection h
      simp only [updateFirst, if_pos hp]
      rw [List.find?_cons_of_pos _ hf]
    · rw [List.find?_cons_of_neg _ hp] at h
      simp only [updateFirst, if_neg hp]
      rw [List.find?_cons_of_neg _ hp]
      exact ih h

/-- When the first match lies in the left part of an append, updating the
first match leaves the right part untouched. -/
theorem updateFirst_append (p : Appointment → Bool) (f : Appointment → Appointment)
    (l₁ l₂ : List Appointment) (x : Appointment) (h : l₁.find? p = some x) :
    updateFirst p f (l₁ ++ l₂) = updateFirst p f l₁ ++ l₂ := by
  induction l₁ with
  | nil => simp [List.find?] at h
  | cons a t ih =>
    by_cases hp : p a
    · simp [updateFirst, hp]
    · rw [List.find?_cons_of_neg _ hp] at h
      simp [updateFirst, hp, ih h]

/-- Every element of an updated list is an original element or the image
of an original element. -/
theorem mem_updateFirst (p : Appointment → Bool) (f : Appointment → Appointment)
    (l : List Appointment) (a : Appointment) (h : a ∈ updateFirst p f l) :
    a ∈ l ∨ ∃ b ∈ l, a = f b := by
  induction l with
  | nil => cases h
  | cons c t ih =>
    by_cases hp : p c
    · simp only [updateFirst, if_pos hp, List.mem_cons] at h
      rcases h with rfl | h
      · exact Or.inr ⟨c, List.mem_cons_self c t, rfl⟩
      · exact Or.inl (List.mem_cons_of_mem c h)
    · simp only [updateFirst, if_neg hp, List.mem_cons] at h
      rcases h with rfl | h
      · exact Or.inl (List.mem_cons_self a t)
      · rcases ih h with h1 | ⟨b, hb, rfl⟩
        · exact Or.inl (List.mem_cons_of_mem c h1)
        · exact Or.inr ⟨b, List.mem_cons_of_mem c hb, rfl⟩

/-- Every slot the generation loop emits is exactly 30 minutes long and is
tagged unavailable exactly when the booked pairs contain its start time
paired with 30. -/
theorem generateSlotsAux_mem (booked_slots : List (Nat × Nat)) :
    ∀ (fuel current end_time : Nat) (s : TimeSlot),
      s ∈ generateSlotsAux booked_slots fuel current end_time →
      s.end_time = s.start_time + 30 ∧
      s.is_available = !(booked_slots.contains (s.start_time, 30)) := by
  intro fuel
  induction fuel with
  | zero => intro current end_time s h; cases h
  | succ n ih =>
    intro current end_time s h
    by_cases hc : current < end_time
    · simp only [generateSlotsAux, if_pos hc, List.mem_append] at h
      rcases h with h1 | h2
      · by_cases h30 : current + 30 ≤ end_time
        · simp only [if_pos h30, List.mem_singleton] at h1
          subst h1
          exact ⟨rfl, rfl⟩
        · simp [if_neg h30] at h1
      · exact ih (current + 30) end_time s h2
    · simp [generateSlotsAux, hc] at h

/-- The same, stated for generateSlots. -/
theorem generateSlots_mem (current end_time : Nat) (booked_slots : List (Nat × Nat))
    (s : TimeSlot) (h : s ∈ generateSlots current end_time booked_slots) :
    s.end_time = s.start_time + 30 ∧
    s.is_available = !(booked_slots.contains (s.start_time, 30)) :=
  generateSlotsAux_mem booked_slots (end_time - current) current end_time s h

/-- Refund evaluation, top tier: with at least 24 hours to go, the refund
is the full 100 dollar fee at 100 percent. -/
theorem calculate_refund_tier100 (db : DB) (now : ℚ) (appointment_id : String)
    (a : Appointment) (hfind : find_appointment db.appointments appointment_id = some a)
    (hnot : ¬(a.status = .completed ∨ a.status = .no_show))
    (h : 24 ≤ hoursUntil now a) :
    calculate_refund db now appointment_id =
      .ok { refund_amount := 100, refund_percentage := 100,
            policy := "100% refund - cancelled 24+ hours before appointment" } := by
  unfold calculate_refund
  rw [hfind]
  simp only [if_neg hnot, if_pos h, Except.ok.injEq, RefundResult.mk.injEq]
  norm_num

/-- Refund evaluation, middle tier: with at least 6 but less than 24
hours to go, the refund is half the 100 dollar fee at 50 percent. -/
theorem calculate_refund_tier50 (db : DB) (now : ℚ) (appointment_id : String)
    (a : Appointment) (hfind : find_appointment db.appointments appointment_id = some a)
    (hnot : ¬(a.status = .completed ∨ a.status = .no_show))
    (h6 : 6 ≤ hoursUntil now a) (h24 : hoursUntil now a < 24) :
    calculate_refund db now appointment_id =
      .ok { refund_amount := 50, refund_percentage := 50,
            policy := "50% refund - cancelled 6-24 hours before appointment" } := by
  unfold calculate_refund
  rw [hfind]
  simp only [if_neg hnot, if_neg (not_le.mpr h24), if_pos h6, Except.ok.injEq,
    RefundResult.mk.injEq]
  norm_num

/-- Refund evaluation, bottom tier: with less than 6 hours to go, the
refund is zero. -/
theorem calculate_refund_tier0 (db : DB) (now : ℚ) (appointment_id : String)
    (a : Appointment) (hfind : find_appointment db.appointments appointment_id = some a)
    (hnot : ¬(a.status = .completed ∨ a.status = .no_show))
    (h6 : hoursUntil now a < 6) :
    calculate_refund db now appointment_id =
      .ok { refund_amount := 0, refund_percentage := 0,
            policy := "0% refund - cancelled less than 6 hours before appointment" } := by
  unfold calculate_refund
  rw [hfind]
  have h24 : ¬ (24 ≤ hoursUntil now a) := by
    intro hc
    linarith
  simp only [if_neg hnot, if_neg h24, if_neg (not_le.mpr h6), Except.ok.injEq,
    RefundResult.mk.injEq]
  norm_num

/-- Refund evaluation, excluded statuses: a completed or no show
appointment gets the zero not applicable refund. -/
theorem calculate_refund_excluded (db : DB) (now : ℚ) (appointment_id : String)
    (a : Appointment) (hfind : find_appointment db.appointments appointment_id = some a)
    (hex : a.status = .completed ∨ a.status = .no_show) :
    calculate_refund db now appointment_id =
      .ok { refund_amount := 0, refund_percentage := 0, policy := "not_applicable" } := by
  unfold calculate_refund
  rw [hfind]
  simp only [if_pos hex]

/-- Cancellation evaluation on a cancellable appointment: the first
stored record with the id is rewritten by the cancellation update and the
response reports the refund decision. -/
theorem cancel_appointment_run (db : DB) (now : ℚ) (appointment_id reason : String)
    (a : Appointment) (rr : RefundResult)
    (hfind : find_appointment db.appointments appointment_id = some a)
    (hno : ¬(a.status = .completed ∨ a.status = .cancelled))
    (hrr : calculate_refund db now appointment_id = .ok rr) :
    cancel_appointment db now appointment_id reason =
      .ok ({ db with appointments := updateFirst (fun x => x.appointment_id == appointment_id) (cancelUpdate now reason rr) db.appointments },
           { appointment_id := appointment_id,
             status := "cancelled",
             refund_status := if 0 < rr.refund_amount then "pending" else "not_applicable",
             refund_amount := rr.refund_amount,
             refund_percentage := rr.refund_percentage,
             cancellation_reason := reason,
             cancelled_at := now,
             refund_policy := rr.policy }) := by
  unfold cancel_appointment
  rw [hfind]
  simp only [if_neg hno]
  rw [hrr]

/-- Cancellation evaluation on a completed or already cancelled
appointment: the precondition fails. -/
theorem cancel_appointment_blocked (db : DB) (now : ℚ) (appointment_id reason : String)
    (a : Appointment)
    (hfind : find_appointment db.appointments appointment_id = some a)
    (hyes : a.status = .completed ∨ a.status = .cancelled) :
    cancel_appointment db now appointment_id reason = .error .cannot_cancel := by
  unfold cancel_appointment
  rw [hfind]
  simp only [if_pos hyes]

/-- Booking check evaluation: a conflict is reported first, before any
timing validation. -/
theorem bookPhaseCheck_conflict (db : DB) (now : ℚ) (d : AppointmentCreate)
    (hc : (check_conflict_detection db.appointments d.doctor_id d.appointment_date
      d.appointment_time d.duration_minutes none).conflict_found = true) :
    bookPhaseCheck db now d = some .slot_unavailable := by
  unfold bookPhaseCheck
  simp only [if_pos hc]

/-- Booking check evaluation: with no conflict, a start not in the strict
future is reported as the must be future error. -/
theorem bookPhaseCheck_past (db : DB) (now : ℚ) (d : AppointmentCreate)
    (hc : (check_conflict_detection db.appointments d.doctor_id d.appointment_date
      d.appointment_time d.duration_minutes none).conflict_found = false)
    (hp : ((toDatetime d.appointment_date d.appointment_time : Nat) : ℚ) ≤ now) :
    bookPhaseCheck db now d = some .must_be_future := by
  have hnc : ¬ ((check_conflict_detection db.appointments d.doctor_id d.appointment_date
      d.appointment_time d.duration_minutes none).conflict_found = true) := by
    rw [hc]
    exact Bool.false_ne_true
  unfold bookPhaseCheck
  simp only [if_neg hnc, if_pos hp]

/-- Booking check evaluation: with no conflict and a future start inside
the 24 hour lead window, the minimum advance error is reported. -/
theorem bookPhaseCheck_lead (db : DB) (now : ℚ) (d : AppointmentCreate)
    (hc : (check_conflict_detection db.appointments d.doctor_id d.appointment_date
      d.appointment_time d.duration_minutes none).conflict_found = false)
    (hp : ¬ ((toDatetime d.appointment_date d.appointment_time : Nat) : ℚ) ≤ now)
    (hl : ((toDatetime d.appointment_date d.appointment_time : Nat) : ℚ) < now + 24 * 60) :
    bookPhaseCheck db now d = some .min_advance_24h := by
  have hnc : ¬ ((check_conflict_detection db.appointments d.doctor_id d.appointment_date
      d.appointment_time d.duration_minutes none).conflict_found = true) := by
    rw [hc]
    exact Bool.false_ne_true
  unfold bookPhaseCheck
  simp only [if_neg hnc, if_neg hp, if_pos hl]

/-- Booking check evaluation: with no conflict and a start at or beyond
the 24 hour lead window, every check passes. -/
theorem bookPhaseCheck_pass (db : DB) (now : ℚ) (d : AppointmentCreate)
    (hc : (check_conflict_detection db.appointments d.doctor_id d.appointment_date
      d.appointment_time d.duration_minutes none).conflict_found = false)
    (hp : ¬ ((toDatetime d.appointment_date d.appointment_time : Nat) : ℚ) ≤ now)
    (hl : ¬ ((toDatetime d.appointment_date d.appointment_time : Nat) : ℚ) < now + 24 * 60) :
    bookPhaseCheck db now d = none := by
  have hnc : ¬ ((check_conflict_detection db.appointments d.doctor_id d.appointment_date
      d.appointment_time d.duration_minutes none).conflict_found = true) := by
    rw [hc]
    exact Bool.false_ne_true
  unfold bookPhaseCheck
  simp only [if_neg hnc, if_neg hp, if_neg hl]

/-- A failing check makes the booking fail with that error and perform no
insert. -/
theorem book_appointment_error (db : DB) (now : ℚ) (appointment_id patient_id : String)
    (d : AppointmentCreate) (e : ApptError) (he : bookPhaseCheck db now d = some e) :
    book_appointment db now appointment_id patient_id d = .error e := by
  unfold book_appointment
  rw [he]

/-- A passing check makes the booking insert the new document. -/
theorem book_appointment_run (db : DB) (now : ℚ) (appointment_id patient_id : String)
    (d : AppointmentCreate) (hn : bookPhaseCheck db now d = none) :
    book_appointment db now appointment_id patient_id d =
      .ok (bookPhaseInsert db now appointment_id patient_id d) := by
  unfold book_appointment
  rw [hn]

/-- Reschedule evaluation on a reschedulable appointment with a free new
slot: the successor copy is appended with status rescheduled, the first
stored record with the old id is retired, and one history record is
appended. -/
theorem reschedule_appointment_run (db : DB) (now : ℚ)
    (new_appointment_id reschedule_id appointment_id : String)
    (r : RescheduleRequest) (cur : Appointment)
    (hfind : find_appointment db.appointments appointment_id = some cur)
    (hno : ¬(cur.status = .completed ∨ cur.status = .cancelled))
    (hconf : (check_conflict_detection db.appointments cur.doctor_id r.new_date r.new_time
      cur.duration_minutes (some appointment_id)).conflict_found = false) :
    reschedule_appointment db now new_appointment_id reschedule_id appointment_id r =
      .ok ({ db with
             appointments := updateFirst (fun x => x.appointment_id == appointment_id) (rescheduleRetire now r) (db.appointments ++ [{ cur with appointment_id := new_appointment_id, appointment_date := r.new_date, appointment_time := r.new_time, status := .rescheduled, created_at := now, updated_at := now }]),
             reschedule_history := db.reschedule_history ++ [{ reschedule_id := reschedule_id, original_appointment_id := appointment_id, new_appointment_id := new_appointment_id, rescheduled_at := now }],
             reminders := schedule_reminders db.reminders now { cur with appointment_id := new_appointment_id, appointment_date := r.new_date, appointment_time := r.new_time, status := .rescheduled, created_at := now, updated_at := now } },
           { old_appointment := cur,
             new_appointment := { cur with appointment_id := new_appointment_id, appointment_date := r.new_date, appointment_time := r.new_time, status := .rescheduled, created_at := now, updated_at := now },
             reschedule_id := reschedule_id,
             rescheduled_at := now,
             refund_adjustment := 0 }) := by
  have hnc : ¬ ((check_conflict_detection db.appointments cur.doctor_id r.new_date r.new_time
      cur.duration_minutes (some appointment_id)).conflict_found = true) := by
    rw [hconf]
    exact Bool.false_ne_true
  unfold reschedule_appointment
  rw [hfind]
  simp only [if_neg hno, if_neg hnc]

/-- Completion evaluation: with the id present, the first stored record
with the id is rewritten to completed and returned. -/
theorem complete_appointment_run (db : DB) (now : ℚ) (appointment_id : String)
    (notes : Option String) (a : Appointment)
    (hfind : find_appointment db.appointments appointment_id = some a) :
    complete_appointment db now appointment_id notes =
      .ok ({ db with appointments := updateFirst (fun x => x.appointment_id == appointment_id) (fun x => { x with status := .completed, completed_at := some now, consultation_notes := notes, updated_at := now }) db.appointments },
           { a with status := .completed, completed_at := some now,
                    consultation_notes := notes, updated_at := now }) := by
  have hfind' : db.appointments.find? (fun x => x.appointment_id == appointment_id) =
      some a := hfind
  have hpa0 := List.find?_some hfind'
  have hpa : (a.appointment_id == appointment_id) = true := hpa0
  have key := updateFirst_find? (fun x => x.appointment_id == appointment_id)
    (fun x => { x with status := .completed, completed_at := some now,
                       consultation_notes := notes, updated_at := now })
    db.appointments a hfind' (by exact hpa)
  unfold complete_appointment find_appointment
  rw [key]

/-- C2 counterexample: a candidate interval [630, 660) that merely
touches the stored active interval [600, 630) at the endpoint shares no
instant with it under the half open rule, yet check_conflict_detection
reports a conflict, because both branch comparisons of the query are
inclusive.  This refutes the claim that touching intervals are not a
conflict. -/
theorem c2_touching_endpoint_is_reported :
    (check_conflict_detection [c2_existing] "c2doc" 0 630 30 none).conflict_found = true ∧
    ¬(c2_existing.appointment_time < 630 + 30 ∧
      630 < c2_existing.appointment_time + c2_existing.duration_minutes) := by
  decide

/-- C2 amended: the conflict flag is set if and only if some stored
appointment of the doctor is in an active status (scheduled, confirmed or
in_progress — cancelled, completed and no_show never contribute), is not
the excluded id, lies on the requested date, and its closed interval
intersects the closed candidate interval; equivalently the half open
overlap test with both endpoint comparisons made inclusive, so intervals
that merely touch at an endpoint do conflict. -/
theorem c2_conflict_iff_closed_overlap (appointments : List Appointment)
    (doctor_id : String) (date time dur : Nat) (excl : Option String) :
    (check_conflict_detection appointments doctor_id date time dur excl).conflict_found = true ↔
    ∃ a ∈ appointments, a.doctor_id = doctor_id ∧ isActiveStatus a.status = true ∧
      a.appointment_date = date ∧
      a.appointment_time ≤ time + dur ∧ time ≤ a.appointment_time + a.duration_minutes ∧
      (∀ e, excl = some e → a.appointment_id ≠ e) := by
  rw [conflict_found_iff]
  constructor
  · rintro ⟨a, ha, hm⟩
    exact ⟨a, ha, (conflictQueryMatch_iff doctor_id date time dur excl a).mp hm⟩
  · rintro ⟨a, ha, h⟩
    exact ⟨a, ha, (conflictQueryMatch_iff doctor_id date time dur excl a).mpr h⟩

/-- C3 counterexample: the active appointment [615, 645) overlaps the
candidate slots [600, 630) and [630, 660) under the half open rule, yet
the grid built by the day availability calculation marks no slot occupied
at all, because a slot is matched against booked pairs of exact start
time and duration rather than by interval overlap.  This refutes the
claim that a slot is occupied if and only if it overlaps an active
appointment. -/
theorem c3_overlapping_appointment_occupies_nothing :
    (((calculate_day_availability 0 default_working_hours [c3_appt]).slots.filter
      (fun s => !s.is_available)).length = 0) ∧
    (⟨600, 630, true⟩ : TimeSlot) ∈
      (calculate_day_availability 0 default_working_hours [c3_appt]).slots ∧
    isActiveStatus c3_appt.status = true ∧
    c3_appt.appointment_date = 0 ∧
    c3_appt.appointment_time < 630 ∧ 600 < c3_appt.appointment_time + c3_appt.duration_minutes := by
  decide

/-- C3 amended: the day grid walks each working range in fixed 30 minute
steps (the step is hard coded, not the caller supplied duration), and a
slot is occupied exactly when some appointment of the supplied list (the
callers pass the active appointments of the provider) lies on that date
and starts exactly at the slot start with duration exactly 30; overlap
plays no part. -/
theorem c3_slot_occupied_iff_exact_start_match (date : Nat)
    (working_hours : List (String × List (Nat × Nat))) (appointments : List Appointment)
    (s : TimeSlot)
    (hs : s ∈ (calculate_day_availability date working_hours appointments).slots) :
    s.end_time = s.start_time + 30 ∧
    (s.is_available = false ↔
      ∃ a ∈ appointments, a.appointment_date = date ∧
        a.appointment_time = s.start_time ∧ a.duration_minutes = 30) := by
  rcases hlk : working_hours.lookup (weekdayName date) with _ | ranges
  · simp only [calculate_day_availability, hlk] at hs
    simp at hs
  · cases ranges with
    | nil =>
      simp only [calculate_day_availability, hlk] at hs
      simp at hs
    | cons r rs =>
      simp only [calculate_day_availability, hlk, List.mem_flatten, List.mem_map] at hs
      obtain ⟨l, ⟨rg, hrg, rfl⟩, hsl⟩ := hs
      obtain ⟨hend, havail⟩ := generateSlots_mem rg.1 rg.2 _ s hsl
      refine ⟨hend, ?_⟩
      rw [havail]
      have hbool : ∀ b : Bool, ((!b) = false ↔ b = true) := by
        intro b
        simp
      have hcontains : (((appointments.filter fun a => a.appointment_date == date).map
          fun a => (a.appointment_time, a.duration_minutes)).contains (s.start_time, 30)) = true ↔
          (s.start_time, 30) ∈ ((appointments.filter fun a => a.appointment_date == date).map
          fun a => (a.appointment_time, a.duration_minutes)) := by
        simp
      have hmem : ((s.start_time, 30) ∈ ((appointments.filter fun a => a.appointment_date == date).map
          fun a => (a.appointment_time, a.duration_minutes))) ↔
          ∃ a ∈ appointments, a.appointment_date = date ∧
            a.appointment_time = s.start_time ∧ a.duration_minutes = 30 := by
        simp only [List.mem_map, List.mem_filter, beq_iff_eq]
        constructor
        · rintro ⟨a, ⟨ha, hdate⟩, heq⟩
          rw [Prod.mk.injEq] at heq
          exact ⟨a, ha, hdate, heq.1, heq.2⟩
        · rintro ⟨a, ha, hdate, h1, h2⟩
          exact ⟨a, ⟨ha, hdate⟩, by rw [h1, h2]⟩
      rw [hbool, hcontains]
      exact hmem

/-- C9 counterexample: for a provider with Monday 09:00 to 17:00 hours
and one active appointment at 10:00 for 30 minutes, the availability
walk produces 16 slots (09:00 through 16:30), not the 15 the claim
states. -/
theorem c9_grid_has_sixteen_slots :
    ((get_real_time_availability [c9_appt] "c9doc" 0 0).headD ⟨0, [], false⟩).slots.length ≠ 15 ∧
    ((get_real_time_availability [c9_appt] "c9doc" 0 0).headD ⟨0, [], false⟩).slots.length = 16 := by
  decide

/-- C9 amended: the Monday grid for that provider and appointment is the
explicit 16 slot sequence 09:00 through 16:30 in 30 minute steps, with
09:00 and 09:30 available, 10:00 occupied, and 10:30 through 16:30
available — 16 slots in total of which exactly one is occupied. -/
theorem c9_monday_grid_example :
    get_real_time_availability [c9_appt] "c9doc" 0 0 =
      [{ date := 0,
         slots := [⟨540, 570, true⟩, ⟨570, 600, true⟩, ⟨600, 630, false⟩,
                   ⟨630, 660, true⟩, ⟨660, 690, true⟩, ⟨690, 720, true⟩,
                   ⟨720, 750, true⟩, ⟨750, 780, true⟩, ⟨780, 810, true⟩,
                   ⟨810, 840, true⟩, ⟨840, 870, true⟩, ⟨870, 900, true⟩,
                   ⟨900, 930, true⟩, ⟨930, 960, true⟩, ⟨960, 990, true⟩,
                   ⟨990, 1020, true⟩],
         is_working_day := true }] ∧
    (((get_real_time_availability [c9_appt] "c9doc" 0 0).headD ⟨0, [], false⟩).slots.filter
      (fun s => !s.is_available)).length = 1 := by
  decide

/-- Witness for the amended C3 statement at a concrete grid: the slot at
10:00 of Monday day 0 is occupied and the characterisation holds for
it. -/
theorem c3_slot_occupied_witness :
    (⟨600, 630, false⟩ : TimeSlot) ∈
      (calculate_day_availability 0 default_working_hours [c3w_appt]).slots ∧
    ((⟨600, 630, false⟩ : TimeSlot).end_time = (⟨600, 630, false⟩ : TimeSlot).start_time + 30 ∧
     ((⟨600, 630, false⟩ : TimeSlot).is_available = false ↔
       ∃ a ∈ [c3w_appt], a.appointment_date = 0 ∧
         a.appointment_time = (⟨600, 630, false⟩ : TimeSlot).start_time ∧
         a.duration_minutes = 30)) :=
  ⟨by decide,
   c3_slot_occupied_iff_exact_start_match 0 default_working_hours [c3w_appt]
     ⟨600, 630, false⟩ (by decide)⟩

/-- C4: for an appointment in a cancellable state (not completed,
cancelled or no_show), the refund percentage is exactly 100 when at
least 24 hours remain (boundary inclusive), exactly 50 from 6 inclusive
up to 24 exclusive, and exactly 0 below 6 hours, and the refund amount
is the 100 dollar base consultation fee times the percentage over
100. -/
theorem c4_refund_tiers (db : DB) (now : ℚ) (appointment_id : String) (a : Appointment)
    (hfind : find_appointment db.appointments appointment_id = some a)
    (h1 : a.status ≠ .completed) (h2 : a.status ≠ .cancelled) (h3 : a.status ≠ .no_show) :
    (24 ≤ hoursUntil now a →
      calculate_refund db now appointment_id =
        .ok ⟨100, 100, "100% refund - cancelled 24+ hours before appointment"⟩) ∧
    (6 ≤ hoursUntil now a → hoursUntil now a < 24 →
      calculate_refund db now appointment_id =
        .ok ⟨50, 50, "50% refund - cancelled 6-24 hours before appointment"⟩) ∧
    (hoursUntil now a < 6 →
      calculate_refund db now appointment_id =
        .ok ⟨0, 0, "0% refund - cancelled less than 6 hours before appointment"⟩) := by
  have hnot : ¬(a.status = .completed ∨ a.status = .no_show) := by
    rintro (h | h)
    · exact h1 h
    · exact h3 h
  exact ⟨fun h => calculate_refund_tier100 db now appointment_id a hfind hnot h,
         fun h6 h24 => calculate_refund_tier50 db now appointment_id a hfind hnot h6 h24,
         fun h => calculate_refund_tier0 db now appointment_id a hfind hnot h⟩

/-- Witness for C4 at the example of the claim: an appointment starting
in exactly 10 hours refunds 50 percent of the 100 dollar fee, amount
50. -/
theorem c4_refund_witness :
    calculate_refund ⟨[c4_appt], [], []⟩ 0 "c4a" =
      .ok ⟨50, 50, "50% refund - cancelled 6-24 hours before appointment"⟩ :=
  (c4_refund_tiers ⟨[c4_appt], [], []⟩ 0 "c4a" c4_appt rfl (by decide) (by decide)
    (by decide)).2.1
    (by norm_num [hoursUntil, toDatetime, c4_appt, newAppointmentDoc])
    (by norm_num [hoursUntil, toDatetime, c4_appt, newAppointmentDoc])

/-- C6 counterexample: a booking for yesterday whose slot also conflicts
fails with the slot unavailable error, not the invalid timing error,
because book_appointment runs the conflict check before any timing
validation.  This refutes the claim that the past and lead time
rejections happen before the conflict check and that booking for
yesterday never fails with the slot unavailable error. -/
theorem c6_past_booking_reports_conflict :
    ((toDatetime c6_req.appointment_date c6_req.appointment_time : Nat) : ℚ) ≤ 16440 ∧
    book_appointment ⟨[c6_existing], [], []⟩ 16440 "c6b" "c6q" c6_req =
      .error .slot_unavailable := by
  constructor
  · norm_num [toDatetime, c6_req]
  · exact book_appointment_error _ _ _ _ _ _ (bookPhaseCheck_conflict _ _ _ (by decide))

/-- C6 amended: a booking whose start is in the past or inside the 24
hour lead window always fails with no store mutation, but the conflict
check runs first: with a conflict the error is slot unavailable, and
only with a clear conflict check is the timing error reported (must be
future when the start is not strictly in the future, otherwise the
minimum advance error). -/
theorem c6_timing_checked_after_conflict (db : DB) (now : ℚ)
    (appointment_id patient_id : String) (d : AppointmentCreate)
    (hlead : ((toDatetime d.appointment_date d.appointment_time : Nat) : ℚ) < now + 24 * 60) :
    (∃ e, book_appointment db now appointment_id patient_id d = .error e) ∧
    ((check_conflict_detection db.appointments d.doctor_id d.appointment_date
        d.appointment_time d.duration_minutes none).conflict_found = true →
      book_appointment db now appointment_id patient_id d = .error .slot_unavailable) ∧
    ((check_conflict_detection db.appointments d.doctor_id d.appointment_date
        d.appointment_time d.duration_minutes none).conflict_found = false →
      book_appointment db now appointment_id patient_id d = .error .must_be_future ∨
      book_appointment db now appointment_id patient_id d = .error .min_advance_24h) := by
  cases hc : (check_conflict_detection db.appointments d.doctor_id d.appointment_date
      d.appointment_time d.duration_minutes none).conflict_found with
  | false =>
    by_cases hp : ((toDatetime d.appointment_date d.appointment_time : Nat) : ℚ) ≤ now
    · have hb := book_appointment_error db now appointment_id patient_id d _
        (bookPhaseCheck_past db now d hc hp)
      exact ⟨⟨_, hb⟩,
        fun htrue => absurd htrue (by decide),
        fun _ => Or.inl hb⟩
    · have hb := book_appointment_error db now appointment_id patient_id d _
        (bookPhaseCheck_lead db now d hc hp hlead)
      exact ⟨⟨_, hb⟩,
        fun htrue => absurd htrue (by decide),
        fun _ => Or.inr hb⟩
  | true =>
    have hb := book_appointment_error db now appointment_id patient_id d _
      (bookPhaseCheck_conflict db now d hc)
    refine ⟨⟨_, hb⟩, fun _ => hb, fun hfalse => ?_⟩
    exact absurd hfalse (by decide)

/-- Witness for the amended C6 statement: with an empty store (no
conflict) the past booking fails with the must be future timing
error. -/
theorem c6_timing_witness :
    book_appointment ⟨[], [], []⟩ 16440 "c6w" "c6wq" c6w_req = .error .must_be_future ∨
    book_appointment ⟨[], [], []⟩ 16440 "c6w" "c6wq" c6w_req = .error .min_advance_24h :=
  (c6_timing_checked_after_conflict ⟨[], [], []⟩ 16440 "c6w" "c6wq" c6w_req
    (by norm_num [toDatetime, c6w_req])).2.2 (by decide)

/-- C7 counterexample: the cancel precondition only rejects completed and
cancelled records, so a no_show appointment is cancelled successfully
rather than failing with the invalid state error.  This refutes the
claim that cancelling a no_show appointment fails. -/
theorem c7_no_show_is_cancellable :
    c7_appt.status = .no_show ∧
    ∃ db' resp, cancel_appointment ⟨[c7_appt], [], []⟩ 0 "c7a" "changed plans" =
        .ok (db', resp) ∧
      (find_appointment db'.appointments "c7a").map Appointment.status = some .cancelled := by
  refine ⟨rfl, ?_⟩
  have hrr := calculate_refund_excluded ⟨[c7_appt], [], []⟩ 0 "c7a" c7_appt rfl (Or.inr rfl)
  have hc := cancel_appointment_run ⟨[c7_appt], [], []⟩ 0 "c7a" "changed plans" c7_appt
    ⟨0, 0, "not_applicable"⟩ rfl (by decide) hrr
  exact ⟨_, _, hc, by decide⟩

/-- C7 amended: for a stored appointment, cancellation fails with the
invalid state error exactly when the status is completed or cancelled;
every other status — no_show included — proceeds to a successful
cancellation. -/
theorem c7_cancel_precondition (db : DB) (now : ℚ) (appointment_id reason : String)
    (a : Appointment) (hfind : find_appointment db.appointments appointment_id = some a) :
    ((a.status = .completed ∨ a.status = .cancelled) →
      cancel_appointment db now appointment_id reason = .error .cannot_cancel) ∧
    (a.status ≠ .completed → a.status ≠ .cancelled →
      ∃ p, cancel_appointment db now appointment_id reason = .ok p) := by
  constructor
  · intro h
    exact cancel_appointment_blocked db now appointment_id reason a hfind h
  · intro h1 h2
    have hno : ¬(a.status = .completed ∨ a.status = .cancelled) := by
      rintro (h | h)
      · exact h1 h
      · exact h2 h
    by_cases hex : a.status = .completed ∨ a.status = .no_show
    · exact ⟨_, cancel_appointment_run db now appointment_id reason a _ hfind hno
        (calculate_refund_excluded db now appointment_id a hfind hex)⟩
    · by_cases h24 : 24 ≤ hoursUntil now a
      · exact ⟨_, cancel_appointment_run db now appointment_id reason a _ hfind hno
          (calculate_refund_tier100 db now appointment_id a hfind hex h24)⟩
      · by_cases h6 : 6 ≤ hoursUntil now a
        · exact ⟨_, cancel_appointment_run db now appointment_id reason a _ hfind hno
            (calculate_refund_tier50 db now appointment_id a hfind hex h6 (not_le.mp h24))⟩
        · exact ⟨_, cancel_appointment_run db now appointment_id reason a _ hfind hno
            (calculate_refund_tier0 db now appointment_id a hfind hex (not_le.mp h6))⟩

/-- Witness for the amended C7 statement: cancelling a completed
appointment fails with the invalid state error. -/
theorem c7_cancel_witness :
    cancel_appointment ⟨[c7w_appt], [], []⟩ 0 "c7w" "too late" = .error .cannot_cancel :=
  (c7_cancel_precondition ⟨[c7w_appt], [], []⟩ 0 "c7w" "too late" c7w_appt rfl).1
    (Or.inl rfl)

/-- C8 counterexample: after a successful cancellation the response
carries refund percentage 50, but the stored appointment record has no
refund percentage written — the update document of cancel_appointment
omits that key — so the stored field is still absent (none).  This
refutes the claim that the refund percentage is recorded on the
appointment record. -/
theorem c8_refund_percentage_not_persisted :
    ∃ db' resp, cancel_appointment ⟨[c8_appt], [], []⟩ 0 "c8a" "plans changed" =
        .ok (db', resp) ∧
      resp.refund_percentage = 50 ∧
      (find_appointment db'.appointments "c8a").map Appointment.refund_percentage =
        some none ∧
      c8_appt.refund_percentage = none := by
  have hrr := calculate_refund_tier50 ⟨[c8_appt], [], []⟩ 0 "c8a" c8_appt rfl (by decide)
    (by norm_num [hoursUntil, toDatetime, c8_appt, newAppointmentDoc])
    (by norm_num [hoursUntil, toDatetime, c8_appt, newAppointmentDoc])
  have hc := cancel_appointment_run ⟨[c8_appt], [], []⟩ 0 "c8a" "plans changed" c8_appt
    _ rfl (by decide) hrr
  exact ⟨_, _, hc, rfl, by decide, rfl⟩

/-- C8 amended: a successful cancellation rewrites the stored record to
status cancelled with the cancellation clock, the given reason, the
refund amount, and a refund status of pending exactly when the amount is
positive and not applicable otherwise, while leaving the schedule fields
(provider, requester, date, start, duration) and the never written
refund percentage field unchanged; the refund percentage is only
reported on the response, and no money is moved — the operation records
the decision in the store and returns it. -/
theorem c8_cancel_side_effects (db : DB) (now : ℚ) (appointment_id reason : String)
    (a : Appointment)
    (hfind : find_appointment db.appointments appointment_id = some a)
    (h1 : a.status ≠ .completed) (h2 : a.status ≠ .cancelled) :
    ∃ db' resp rr,
      calculate_refund db now appointment_id = .ok rr ∧
      cancel_appointment db now appointment_id reason = .ok (db', resp) ∧
      (∃ u, find_appointment db'.appointments appointment_id = some u ∧
        u.status = .cancelled ∧
        u.cancelled_at = some now ∧
        u.cancellation_reason = some reason ∧
        u.refund_amount = rr.refund_amount ∧
        u.refund_status = (if 0 < rr.refund_amount then "pending" else "not_applicable") ∧
        u.refund_percentage = a.refund_percentage ∧
        u.doctor_id = a.doctor_id ∧
        u.patient_id = a.patient_id ∧
        u.appointment_date = a.appointment_date ∧
        u.appointment_time = a.appointment_time ∧
        u.duration_minutes = a.duration_minutes) ∧
      resp.refund_amount = rr.refund_amount ∧
      resp.refund_percentage = rr.refund_percentage ∧
      resp.refund_status = (if 0 < rr.refund_amount then "pending" else "not_applicable") := by
  have hno : ¬(a.status = .completed ∨ a.status = .cancelled) := by
    rintro (h | h)
    · exact h1 h
    · exact h2 h
  obtain ⟨rr, hrr⟩ : ∃ rr, calculate_refund db now appointment_id = .ok rr := by
    by_cases hex : a.status = .completed ∨ a.status = .no_show
    · exact ⟨_, calculate_refund_excluded db now appointment_id a hfind hex⟩
    · by_cases h24 : 24 ≤ hoursUntil now a
      · exact ⟨_, calculate_refund_tier100 db now appointment_id a hfind hex h24⟩
      · by_cases h6 : 6 ≤ hoursUntil now a
        · exact ⟨_, calculate_refund_tier50 db now appointment_id a hfind hex h6
            (not_le.mp h24)⟩
        · exact ⟨_, calculate_refund_tier0 db now appointment_id a hfind hex
            (not_le.mp h6)⟩
  have hc := cancel_appointment_run db now appointment_id reason a rr hfind hno hrr
  have hfind' : db.appointments.find? (fun x => x.appointment_id == appointment_id) =
      some a := hfind
  have hpa0 := List.find?_some hfind'
  have hpa : (a.appointment_id == appointment_id) = true := hpa0
  have hup : (updateFirst (fun x => x.appointment_id == appointment_id)
      (cancelUpdate now reason rr) db.appointments).find?
      (fun x => x.appointment_id == appointment_id) =
      some (cancelUpdate now reason rr a) :=
    updateFirst_find? _ _ _ _ hfind' (by exact hpa)
  exact ⟨_, _, rr, hrr, hc,
    ⟨cancelUpdate now reason rr a, hup, rfl, rfl, rfl, rfl, rfl, rfl, rfl, rfl, rfl, rfl,
      rfl⟩, rfl, rfl, rfl⟩

/-- Witness for the amended C8 statement at the concrete cancellation of
the C8 appointment. -/
theorem c8_cancel_witness :
    ∃ db' resp rr,
      calculate_refund ⟨[c8_appt], [], []⟩ 0 "c8a" = .ok rr ∧
      cancel_appointment ⟨[c8_appt], [], []⟩ 0 "c8a" "plans changed" = .ok (db', resp) ∧
      (∃ u, find_appointment db'.appointments "c8a" = some u ∧
        u.status = .cancelled ∧
        u.cancelled_at = some 0 ∧
        u.cancellation_reason = some "plans changed" ∧
        u.refund_amount = rr.refund_amount ∧
        u.refund_status = (if 0 < rr.refund_amount then "pending" else "not_applicable") ∧
        u.refund_percentage = c8_appt.refund_percentage ∧
        u.doctor_id = c8_appt.doctor_id ∧
        u.patient_id = c8_appt.patient_id ∧
        u.appointment_date = c8_appt.appointment_date ∧
        u.appointment_time = c8_appt.appointment_time ∧
        u.duration_minutes = c8_appt.duration_minutes) ∧
      resp.refund_amount = rr.refund_amount ∧
      resp.refund_percentage = rr.refund_percentage ∧
      resp.refund_status = (if 0 < rr.refund_amount then "pending" else "not_applicable") :=
  c8_cancel_side_effects ⟨[c8_appt], [], []⟩ 0 "c8a" "plans changed" c8_appt rfl
    (by decide) (by decide)

/-- C10: complete_appointment checks no precondition on the current
status: for any stored appointment, whatever its status (cancelled,
no_show or already completed included), it rewrites the record to
completed with the completion clock and the consultation notes and
returns the updated record; no invalid state error exists on this
path. -/
theorem c10_complete_has_no_precondition (db : DB) (now : ℚ) (appointment_id : String)
    (notes : Option String) (a : Appointment)
    (hfind : find_appointment db.appointments appointment_id = some a) :
    ∃ db', complete_appointment db now appointment_id notes =
      .ok (db', { a with status := .completed, completed_at := some now,
                         consultation_notes := notes, updated_at := now }) :=
  ⟨_, complete_appointment_run db now appointment_id notes a hfind⟩

/-- Witness for C10: completing a cancelled appointment succeeds and
returns the completed record. -/
theorem c10_complete_witness :
    ∃ db', complete_appointment ⟨[c10_appt], [], []⟩ 5 "c10a" (some "post visit notes") =
      .ok (db', { c10_appt with status := .completed, completed_at := some 5,
                                consultation_notes := some "post visit notes",
                                updated_at := 5 }) :=
  c10_complete_has_no_precondition ⟨[c10_appt], [], []⟩ 5 "c10a" (some "post visit notes")
    c10_appt rfl

/-- An element appended on the right survives updating the first match
when the first match already lies on the left. -/
theorem mem_updateFirst_append_right (p : Appointment → Bool) (f : Appointment → Appointment)
    (l : List Appointment) (x y : Appointment) (h : l.find? p = some y) :
    x ∈ updateFirst p f (l ++ [x]) := by
  rw [updateFirst_append p f l [x] y h]
  exact List.mem_append_right _ (List.mem_singleton_self x)

/-- Updating the first match inside an append rewrites exactly the record
that find? returns on the left part. -/
theorem find_updateFirst_append (p : Appointment → Bool) (f : Appointment → Appointment)
    (l l₂ : List Appointment) (x : Appointment) (h : l.find? p = some x)
    (hf : p (f x) = true) :
    (updateFirst p f (l ++ l₂)).find? p = some (f x) := by
  rw [updateFirst_append p f l l₂ x h]
  exact find?_append_of_some p _ l₂ (f x) (updateFirst_find? p f l x h hf)

/-- C5 counterexample: after a successful reschedule the successor
record carries status rescheduled, which is not an active status, so the
store holds zero — not exactly one — active appointments of the provider
on the new date.  This refutes the claim that exactly one active
appointment covers the new time. -/
theorem c5_successor_not_active :
    ∃ db' resp, reschedule_appointment ⟨[c5_appt], [], []⟩ 0 "c5b" "c5r" "c5a" ⟨3, 600⟩ =
        .ok (db', resp) ∧
      resp.new_appointment.status = .rescheduled ∧
      isActiveStatus resp.new_appointment.status = false ∧
      (db'.appointments.filter (fun a =>
        a.doctor_id == "c5doc" && a.appointment_date == 3 && isActiveStatus a.status)).length
        = 0 := by
  have hr := reschedule_appointment_run ⟨[c5_appt], [], []⟩ 0 "c5b" "c5r" "c5a" ⟨3, 600⟩
    c5_appt rfl (by decide) (by decide)
  exact ⟨_, _, hr, rfl, rfl, by decide⟩

/-- C5 amended: a successful reschedule appends the successor record
carrying the new date and time but with status rescheduled — not an
active status — retires the old record to cancelled with the reason
string naming the new date and time, and appends exactly one reschedule
history record linking the old id to the new id. -/
theorem c5_reschedule_effects (db : DB) (now : ℚ)
    (new_appointment_id reschedule_id appointment_id : String)
    (r : RescheduleRequest) (cur : Appointment)
    (hfind : find_appointment db.appointments appointment_id = some cur)
    (h1 : cur.status ≠ .completed) (h2 : cur.status ≠ .cancelled)
    (hconf : (check_conflict_detection db.appointments cur.doctor_id r.new_date r.new_time
      cur.duration_minutes (some appointment_id)).conflict_found = false) :
    ∃ db' resp, reschedule_appointment db now new_appointment_id reschedule_id
        appointment_id r = .ok (db', resp) ∧
      resp.new_appointment ∈ db'.appointments ∧
      resp.new_appointment.appointment_date = r.new_date ∧
      resp.new_appointment.appointment_time = r.new_time ∧
      resp.new_appointment.status = .rescheduled ∧
      isActiveStatus resp.new_appointment.status = false ∧
      (∃ old, find_appointment db'.appointments appointment_id = some old ∧
        old.status = .cancelled ∧
        old.cancellation_reason =
          some ("Rescheduled to " ++ toString r.new_date ++ " " ++ toString r.new_time)) ∧
      db'.reschedule_history = db.reschedule_history ++
        [{ reschedule_id := reschedule_id, original_appointment_id := appointment_id,
           new_appointment_id := new_appointment_id, rescheduled_at := now }] ∧
      (db'.reschedule_history.filter (fun rd =>
          rd.original_appointment_id == appointment_id &&
          rd.new_appointment_id == new_appointment_id)).length =
        (db.reschedule_history.filter (fun rd =>
          rd.original_appointment_id == appointment_id &&
          rd.new_appointment_id == new_appointment_id)).length + 1 := by
  have hno : ¬(cur.status = .completed ∨ cur.status = .cancelled) := by
    rintro (h | h)
    · exact h1 h
    · exact h2 h
  have hr := reschedule_appointment_run db now new_appointment_id reschedule_id
    appointment_id r cur hfind hno hconf
  have hfind' : db.appointments.find? (fun x => x.appointment_id == appointment_id) =
      some cur := hfind
  have hpa0 := List.find?_some hfind'
  have hpa : (cur.appointment_id == appointment_id) = true := hpa0
  refine ⟨_, _, hr, ?_, rfl, rfl, rfl, rfl, ?_, rfl, ?_⟩
  · exact mem_updateFirst_append_right _ _ _ _ cur hfind'
  · refine ⟨rescheduleRetire now r cur, ?_, rfl, rfl⟩
    exact find_updateFirst_append _ _ _ _ cur hfind' (by exact hpa)
  · show ((db.reschedule_history ++ [_]).filter _).length = _
    rw [List.filter_append, List.length_append]
    simp

/-- Witness for the amended C5 statement at the concrete reschedule of
the C5 appointment from day 2 to day 3. -/
theorem c5_reschedule_witness :
    ∃ db' resp, reschedule_appointment ⟨[c5_appt], [], []⟩ 0 "c5b" "c5r" "c5a" ⟨3, 600⟩ =
        .ok (db', resp) ∧
      resp.new_appointment ∈ db'.appointments ∧
      resp.new_appointment.appointment_date = 3 ∧
      resp.new_appointment.appointment_time = 600 ∧
      resp.new_appointment.status = .rescheduled ∧
      isActiveStatus resp.new_appointment.status = false ∧
      (∃ old, find_appointment db'.appointments "c5a" = some old ∧
        old.status = .cancelled ∧
        old.cancellation_reason = some ("Rescheduled to " ++ toString 3 ++ " " ++ toString 600)) ∧
      db'.reschedule_history = ([] : List RescheduleRecord) ++
        [{ reschedule_id := "c5r", original_appointment_id := "c5a",
           new_appointment_id := "c5b", rescheduled_at := 0 }] ∧
      (db'.reschedule_history.filter (fun rd =>
          rd.original_appointment_id == "c5a" && rd.new_appointment_id == "c5b")).length =
        (([] : List RescheduleRecord).filter (fun rd =>
          rd.original_appointment_id == "c5a" && rd.new_appointment_id == "c5b")).length + 1 :=
  c5_reschedule_effects ⟨[c5_appt], [], []⟩ 0 "c5b" "c5r" "c5a" ⟨3, 600⟩ c5_appt rfl
    (by decide) (by decide) (by decide)

/-- C1, evaluated at the failing input: starting from an empty
store at clock 0, two identical booking requests for doctor c1doc on day
2 at 10:00 both pass their checks against the same store state; after
both inserts the store holds two distinct overlapping active scheduled
appointments — the invariant of the specification is violated and both
concurrent bookings succeeded. -/
theorem c1_check_then_insert_race :
    ∃ db', interleavedDoubleBook ⟨[], [], []⟩ 0 "c1a" "c1p" c1_req "c1b" "c1q" c1_req =
        some db' ∧
      (∃ a ∈ db'.appointments, ∃ b ∈ db'.appointments,
        a.appointment_id ≠ b.appointment_id ∧
        a.doctor_id = b.doctor_id ∧ a.appointment_date = b.appointment_date ∧
        a.appointment_time < b.appointment_time + b.duration_minutes ∧
        b.appointment_time < a.appointment_time + a.duration_minutes ∧
        isActiveStatus a.status = true ∧ isActiveStatus b.status = true) ∧
      ¬ NoDoubleBooking db' := by
  have hchk : bookPhaseCheck ⟨[], [], []⟩ 0 c1_req = none :=
    bookPhaseCheck_pass _ _ _ (by decide) (by norm_num [toDatetime, c1_req])
      (by norm_num [toDatetime, c1_req])
  have heq : interleavedDoubleBook ⟨[], [], []⟩ 0 "c1a" "c1p" c1_req "c1b" "c1q" c1_req =
      some (bookPhaseInsert (bookPhaseInsert ⟨[], [], []⟩ 0 "c1a" "c1p" c1_req).1
        0 "c1b" "c1q" c1_req).1 := by
    unfold interleavedDoubleBook
    rw [hchk]
  refine ⟨_, heq, by decide, ?_⟩
  intro hinv
  unfold NoDoubleBooking at hinv
  have hpair := List.pairwise_cons.mp (by
    have h2 : (bookPhaseInsert (bookPhaseInsert ⟨[], [], []⟩ 0 "c1a" "c1p" c1_req).1
        0 "c1b" "c1q" c1_req).1.appointments =
        [newAppointmentDoc 0 "c1a" "c1p" c1_req, newAppointmentDoc 0 "c1b" "c1q" c1_req] := rfl
    rw [h2] at hinv
    exact hinv)
  have hrel := hpair.1 (newAppointmentDoc 0 "c1b" "c1q" c1_req) (by decide)
  exact hrel rfl rfl (by decide) (by decide) ⟨by decide, by decide⟩

/-
Sequential execution preserves the invariant: supporting development for
claim C1, isolating the failure to the unguarded concurrency of the
check and insert phases rather than to the sequential logic.
-/

/-- overlapRel holds vacuously when the left appointment is inactive. -/
theorem overlapRel_of_inactive_left (a b : Appointment)
    (ha : isActiveStatus a.status = false) : overlapRel a b := by
  intro _ _ _ _ hact
  rw [ha] at hact
  exact absurd hact.1 (by decide)

/-- overlapRel holds vacuously when the right appointment is inactive. -/
theorem overlapRel_of_inactive_right (a b : Appointment)
    (hb : isActiveStatus b.status = false) : overlapRel a b := by
  intro _ _ _ _ hact
  rw [hb] at hact
  exact absurd hact.2 (by decide)

/-- Updating the first match preserves the pairwise invariant whenever
the rewritten record relates to everything on both sides — in all uses
below because the rewritten record is inactive. -/
theorem pairwise_updateFirst (p : Appointment → Bool) (f : Appointment → Appointment)
    (l : List Appointment) (h : l.Pairwise overlapRel)
    (hfl : ∀ a b : Appointment, overlapRel (f a) b)
    (hfr : ∀ a b : Appointment, overlapRel a (f b)) :
    (updateFirst p f l).Pairwise overlapRel := by
  induction l with
  | nil => exact h
  | cons c t ih =>
    rcases List.pairwise_cons.mp h with ⟨hc, ht⟩
    by_cases hp : p c
    · simp only [updateFirst, if_pos hp]
      exact List.pairwise_cons.mpr ⟨fun b _ => hfl c b, ht⟩
    · simp only [updateFirst, if_neg hp]
      refine List.pairwise_cons.mpr ⟨?_, ih ht⟩
      intro b hb
      rcases mem_updateFirst p f t b hb with h1 | ⟨b0, hb0, rfl⟩
      · exact hc b h1
      · exact hfr c b0

/-- Inversion of a successful booking: the conflict check was clear and
the store gained exactly the new scheduled document. -/
theorem book_appointment_ok_inv (db : DB) (now : ℚ) (appointment_id patient_id : String)
    (d : AppointmentCreate) (pr : DB × Appointment)
    (h : book_appointment db now appointment_id patient_id d = .ok pr) :
    (check_conflict_detection db.appointments d.doctor_id d.appointment_date
      d.appointment_time d.duration_minutes none).conflict_found = false ∧
    pr.1.appointments =
      db.appointments ++ [newAppointmentDoc now appointment_id patient_id d] := by
  unfold book_appointment at h
  cases hchk : bookPhaseCheck db now d with
  | some e => rw [hchk] at h; cases h
  | none =>
    rw [hchk] at h
    have hpr : pr = bookPhaseInsert db now appointment_id patient_id d := by
      injection h with h1
      exact h1.symm
    subst hpr
    refine ⟨?_, rfl⟩
    by_cases hc : (check_conflict_detection db.appointments d.doctor_id d.appointment_date
        d.appointment_time d.duration_minutes none).conflict_found = true
    · rw [bookPhaseCheck_conflict db now d hc] at hchk
      cases hchk
    · cases hcc : (check_conflict_detection db.appointments d.doctor_id d.appointment_date
          d.appointment_time d.duration_minutes none).conflict_found with
      | false => rfl
      | true => exact absurd hcc hc

/-- Inversion of a successful cancellation: the store change is exactly
the cancellation update of the first record with the id. -/
theorem cancel_appointment_ok_inv (db : DB) (now : ℚ) (appointment_id reason : String)
    (pr : DB × CancellationResponse)
    (h : cancel_appointment db now appointment_id reason = .ok pr) :
    ∃ rr, pr.1.appointments = updateFirst (fun x => x.appointment_id == appointment_id)
      (cancelUpdate now reason rr) db.appointments := by
  unfold cancel_appointment at h
  cases hf : find_appointment db.appointments appointment_id with
  | none => rw [hf] at h; cases h
  | some a =>
    rw [hf] at h
    by_cases hs : a.status = .completed ∨ a.status = .cancelled
    · simp only [if_pos hs] at h
      exact Except.noConfusion h
    · simp only [if_neg hs] at h
      cases hr : calculate_refund db now appointment_id with
      | error e =>
        rw [hr] at h
        exact Except.noConfusion h
      | ok rr =>
        rw [hr] at h
        refine ⟨rr, ?_⟩
        injection h with h1
        rw [← h1]

/-- Inversion of a successful reschedule: the store change is exactly the
append of the inactive successor followed by the retirement of the first
record with the old id. -/
theorem reschedule_appointment_ok_inv (db : DB) (now : ℚ)
    (new_appointment_id reschedule_id appointment_id : String) (r : RescheduleRequest)
    (pr : DB × RescheduleResponse)
    (h : reschedule_appointment db now new_appointment_id reschedule_id appointment_id r =
      .ok pr) :
    ∃ cur : Appointment, pr.1.appointments = updateFirst (fun x => x.appointment_id == appointment_id)
      (rescheduleRetire now r)
      (db.appointments ++ [{ cur with appointment_id := new_appointment_id, appointment_date := r.new_date, appointment_time := r.new_time, status := .rescheduled, created_at := now, updated_at := now }]) := by
  unfold reschedule_appointment at h
  cases hf : find_appointment db.appointments appointment_id with
  | none => rw [hf] at h; cases h
  | some cur =>
    rw [hf] at h
    by_cases hs : cur.status = .completed ∨ cur.status = .cancelled
    · simp only [if_pos hs] at h
      exact Except.noConfusion h
    · simp only [if_neg hs] at h
      by_cases hc : (check_conflict_detection db.appointments cur.doctor_id r.new_date
          r.new_time cur.duration_minutes (some appointment_id)).conflict_found = true
      · simp only [if_pos hc] at h
        exact Except.noConfusion h
      · simp only [if_neg hc] at h
        refine ⟨cur, ?_⟩
        injection h with h1
        rw [← h1]

/-- Inversion of a successful completion: the store change is exactly the
completion update of the first record with the id. -/
theorem complete_appointment_ok_inv (db : DB) (now : ℚ) (appointment_id : String)
    (notes : Option String) (pr : DB × Appointment)
    (h : complete_appointment db now appointment_id notes = .ok pr) :
    pr.1.appointments = updateFirst (fun x => x.appointment_id == appointment_id)
      (fun x => { x with status := .completed, completed_at := some now, consultation_notes := notes, updated_at := now }) db.appointments := by
  unfold complete_appointment at h
  cases hf : find_appointment (updateFirst (fun x => x.appointment_id == appointment_id)
      (fun x => { x with status := .completed, completed_at := some now, consultation_notes := notes, updated_at := now }) db.appointments) appointment_id with
  | none => rw [hf] at h; cases h
  | some a =>
    rw [hf] at h
    injection h with h1
    rw [← h1]

/-- One sequentially executed operation preserves the no double booking
invariant: errors change nothing, cancellation, reschedule retirement and
completion only make records inactive, the reschedule successor is
inactive, and a booked document was cleared by the conflict check against
every stored appointment. -/
theorem applyOp_preserves_NoDoubleBooking (db : DB) (op : Op)
    (h : NoDoubleBooking db) : NoDoubleBooking (applyOp db op) := by
  cases op with
  | book now appointment_id patient_id d =>
    simp only [applyOp]
    cases hb : book_appointment db now appointment_id patient_id d with
    | error e => exact h
    | ok pr =>
      obtain ⟨hcf, happts⟩ := book_appointment_ok_inv db now appointment_id patient_id d pr hb
      show NoDoubleBooking pr.1
      unfold NoDoubleBooking
      rw [happts, List.pairwise_append]
      refine ⟨h, by simp, ?_⟩
      intro a ha b hbmem
      rw [List.mem_singleton] at hbmem
      subst hbmem
      intro hdoc hdate hov1 hov2 hact
      have hnm := conflict_not_found db.appointments d.doctor_id d.appointment_date
        d.appointment_time d.duration_minutes none hcf a ha
      have e1 : (newAppointmentDoc now appointment_id patient_id d).doctor_id =
        d.doctor_id := rfl
      have e2 : (newAppointmentDoc now appointment_id patient_id d).appointment_date =
        d.appointment_date := rfl
      have e3 : (newAppointmentDoc now appointment_id patient_id d).appointment_time =
        d.appointment_time := rfl
      have e4 : (newAppointmentDoc now appointment_id patient_id d).duration_minutes =
        d.duration_minutes := rfl
      have hmatch : conflictQueryMatch d.doctor_id d.appointment_date d.appointment_time
          d.duration_minutes none a = true := by
        apply (conflictQueryMatch_iff d.doctor_id d.appointment_date d.appointment_time
          d.duration_minutes none a).mpr
        refine ⟨?_, hact.1, ?_, ?_, ?_, fun e he => by cases he⟩
        · rw [hdoc]
          exact e1
        · rw [hdate]
          exact e2
        · rw [e3, e4] at hov1
          omega
        · rw [e3] at hov2
          omega
      rw [hnm] at hmatch
      cases hmatch
  | cancel now appointment_id reason =>
    simp only [applyOp]
    cases hb : cancel_appointment db now appointment_id reason with
    | error e => exact h
    | ok pr =>
      obtain ⟨rr, happts⟩ := cancel_appointment_ok_inv db now appointment_id reason pr hb
      show NoDoubleBooking pr.1
      unfold NoDoubleBooking
      rw [happts]
      exact pairwise_updateFirst _ _ _ h
        (fun a b => overlapRel_of_inactive_left _ _ rfl)
        (fun a b => overlapRel_of_inactive_right _ _ rfl)
  | reschedule now new_appointment_id reschedule_id appointment_id r =>
    simp only [applyOp]
    cases hb : reschedule_appointment db now new_appointment_id reschedule_id
        appointment_id r with
    | error e => exact h
    | ok pr =>
      obtain ⟨cur, happts⟩ := reschedule_appointment_ok_inv db now new_appointment_id
        reschedule_id appointment_id r pr hb
      show NoDoubleBooking pr.1
      unfold NoDoubleBooking
      rw [happts]
      refine pairwise_updateFirst _ _ _ ?_
        (fun a b => overlapRel_of_inactive_left _ _ rfl)
        (fun a b => overlapRel_of_inactive_right _ _ rfl)
      rw [List.pairwise_append]
      refine ⟨h, by simp, ?_⟩
      intro a ha b hbmem
      rw [List.mem_singleton] at hbmem
      subst hbmem
      exact overlapRel_of_inactive_right _ _ rfl
  | complete now appointment_id notes =>
    simp only [applyOp]
    cases hb : complete_appointment db now appointment_id notes with
    | error e => exact h
    | ok pr =>
      have happts := complete_appointment_ok_inv db now appointment_id notes pr hb
      show NoDoubleBooking pr.1
      unfold NoDoubleBooking
      rw [happts]
      exact pairwise_updateFirst _ _ _ h
        (fun a b => overlapRel_of_inactive_left _ _ rfl)
        (fun a b => overlapRel_of_inactive_right _ _ rfl)

/-- Every sequence of sequentially executed booking, cancellation,
reschedule and completion operations preserves the no double booking
invariant; together with the race theorem for claim C1 this shows the
violation is caused precisely by the interleaving of the check and
insert phases. -/
theorem runOps_preserves_NoDoubleBooking (db : DB) (ops : List Op)
    (h : NoDoubleBooking db) : NoDoubleBooking (runOps db ops) := by
  induction ops generalizing db with
  | nil => exact h
  | cons op rest ih => exact ih (applyOp db op) (applyOp_preserves_NoDoubleBooking db op h)

end ApptSvc
